import Mathlib

/-!
Verification of the financial computation core of `src/js/calculations.js`.

The JavaScript functions are pure numeric functions; we embed them over `ℚ`
(exact arithmetic; JavaScript uses IEEE doubles, so "within floating-point
tolerance" statements become exact equalities here), except for
`calculateAppreciation`, whose CAGR uses `Math.pow` with a real exponent and
is embedded over `ℝ` with `Real.rpow`.  JavaScript division by zero produces
`Infinity`/`NaN`; the embedding uses Mathlib's total division (`x / 0 = 0`).
Every counterexample below lands on inputs where the JavaScript value is
likewise not the value the specification requires.

Schedule rows in the source also carry a `date` field produced by
`Utils.addMonths`; no verified property concerns dates, so the field is
omitted from the embedded `Row`.
-/

/-- One row of an amortization table, mirroring the object literal pushed by
`generateSACTable` / `generatePRICETable` (the `date` field is omitted). -/
structure Row where
  number : ℕ
  payment : ℚ
  interest : ℚ
  amortization : ℚ
  balance : ℚ

/-- The loop body of `generateSACTable`: `k` iterations remain, `balance` is
the running (unclamped) balance, `i` is the 1-based installment counter.
Each iteration computes `interest = balance * monthlyRate`,
`payment = amortization + interest`, decrements the balance by the fixed
amortization, and stores `Math.max(0, balance)`. -/
def sacRows (amortization monthlyRate : ℚ) : ℕ → ℚ → ℕ → List Row
  | 0, _, _ => []
  | k + 1, balance, i =>
    let interest := balance * monthlyRate
    let payment := amortization + interest
    let newBalance := balance - amortization
    { number := i, payment := payment, interest := interest,
      amortization := amortization, balance := max 0 newBalance } ::
      sacRows amortization monthlyRate k newBalance (i + 1)

/-- `Calculations.generateSACTable(principal, annualRate, months, startDate)`:
`monthlyRate = annualRate / 12`, `amortization = principal / months`, then the
loop `for (i = 1; i <= months; i++)`. -/
def generateSACTable (principal annualRate : ℚ) (months : ℕ) : List Row :=
  sacRows (principal / months) (annualRate / 12) months principal 1

/-- Closed form of the SAC loop: row `j` (0-based) has the fixed amortization,
interest charged on the balance `b - a*j` outstanding before it, and stored
balance `max 0 (b - a*(j+1))`. -/
theorem sacRows_eq (a r : ℚ) (k : ℕ) (b : ℚ) (i : ℕ) :
    sacRows a r k b i = (List.range k).map (fun j =>
      ({ number := i + j, payment := a + (b - a * (j : ℚ)) * r,
         interest := (b - a * (j : ℚ)) * r,
         amortization := a,
         balance := max 0 (b - a * ((j : ℚ) + 1)) } : Row)) := by
  induction k generalizing b i with
  | zero => simp [sacRows]
  | succ k ih =>
    rw [sacRows, ih, List.range_succ_eq_map, List.map_cons, List.map_map]
    refine List.cons_eq_cons.mpr ⟨?_, ?_⟩
    · simp
    · apply List.map_congr_left
      intro j _
      simp only [Function.comp_apply]
      congr 1 <;> first
        | omega
        | (push_cast; ring)

theorem generateSACTable_length (p a : ℚ) (m : ℕ) :
    (generateSACTable p a m).length = m := by
  rw [generateSACTable, sacRows_eq]
  simp

theorem sacRows_sum_amort (a r : ℚ) (k : ℕ) (b : ℚ) (i : ℕ) :
    ((sacRows a r k b i).map Row.amortization).sum = k * a := by
  induction k generalizing b i with
  | zero => simp [sacRows]
  | succ k ih =>
    rw [sacRows]
    simp only [List.map_cons, List.sum_cons, ih]
    push_cast
    ring

/-- C1: for `principal > 0` and `termMonths ≥ 1` and any `annualRate`, every
row of the SAC schedule has principal portion `principal / termMonths` and
interest equal to the balance outstanding before the row
(`principal - (principal/termMonths)·j` for the 0-based row index `j`) times
`annualRate/12`; the amortization fields sum to exactly the principal, and the
last row's stored balance is 0. -/
theorem sac_schedule_correct (principal annualRate : ℚ) (months : ℕ)
    (hp : 0 < principal) (hm : 1 ≤ months) :
    (generateSACTable principal annualRate months).length = months ∧
    (∀ j : ℕ, ∀ hj : j < (generateSACTable principal annualRate months).length,
      ((generateSACTable principal annualRate months).get ⟨j, hj⟩).amortization
          = principal / months ∧
      ((generateSACTable principal annualRate months).get ⟨j, hj⟩).interest
          = (principal - principal / months * j) * (annualRate / 12)) ∧
    ((generateSACTable principal annualRate months).map Row.amortization).sum
        = principal ∧
    ((generateSACTable principal annualRate months).map Row.balance).getLast?
        = some 0 := by
  have hm0 : (months : ℚ) ≠ 0 := Nat.cast_ne_zero.mpr (by omega)
  refine ⟨generateSACTable_length _ _ _, ?_, ?_, ?_⟩
  · intro j hj
    simp [generateSACTable, sacRows_eq]
  · rw [generateSACTable, sacRows_sum_amort]
    field_simp
  · rw [generateSACTable, sacRows_eq, List.map_map]
    obtain ⟨k, rfl⟩ : ∃ k, months = k + 1 := ⟨months - 1, by omega⟩
    rw [List.range_succ, List.map_append]
    simp only [List.map_cons, List.map_nil, List.getLast?_concat, Function.comp_apply,
      Option.some.injEq]
    have hk : ((k : ℚ) + 1) ≠ 0 := by positivity
    have h1 : principal - principal / (((k + 1 : ℕ) : ℚ)) * ((k : ℚ) + 1) = 0 := by
      push_cast
      field_simp
    rw [h1]
    simp

/-- Witness for C1 at the concrete loan (principal 2, annual rate 12, 2 months). -/
theorem sac_schedule_correct_witness :
    (0 : ℚ) < 2 ∧ (1 : ℕ) ≤ 2 ∧
    ((generateSACTable 2 12 2).length = 2 ∧
     (∀ j : ℕ, ∀ hj : j < (generateSACTable 2 12 2).length,
        ((generateSACTable 2 12 2).get ⟨j, hj⟩).amortization = 2 / ((2 : ℕ) : ℚ) ∧
        ((generateSACTable 2 12 2).get ⟨j, hj⟩).interest
            = (2 - 2 / ((2 : ℕ) : ℚ) * j) * (12 / 12)) ∧
     ((generateSACTable 2 12 2).map Row.amortization).sum = 2 ∧
     ((generateSACTable 2 12 2).map Row.balance).getLast? = some 0) :=
  ⟨by norm_num, by norm_num, sac_schedule_correct 2 12 2 (by norm_num) (by norm_num)⟩

/-- `Calculations.calculatePRICEPayment(principal, annualRate, months)`:
`monthlyRate = annualRate / 12`; if it is 0 the payment is
`principal / months`, otherwise the annuity formula
`principal * (monthlyRate * (1+monthlyRate)^months) / ((1+monthlyRate)^months - 1)`. -/
def calculatePRICEPayment (principal annualRate : ℚ) (months : ℕ) : ℚ :=
  let monthlyRate := annualRate / 12
  if monthlyRate = 0 then principal / months
  else principal * (monthlyRate * (1 + monthlyRate) ^ months) /
    ((1 + monthlyRate) ^ months - 1)

/-- The loop body of `generatePRICETable`: each iteration computes
`interest = balance * monthlyRate`, `amortization = payment - interest`,
decrements the balance by the amortization, and stores `Math.max(0, balance)`. -/
def priceRows (payment monthlyRate : ℚ) : ℕ → ℚ → ℕ → List Row
  | 0, _, _ => []
  | k + 1, balance, i =>
    let interest := balance * monthlyRate
    let amortization := payment - interest
    let newBalance := balance - amortization
    { number := i, payment := payment, interest := interest,
      amortization := amortization, balance := max 0 newBalance } ::
      priceRows payment monthlyRate k newBalance (i + 1)

/-- `Calculations.generatePRICETable(principal, annualRate, months, startDate)`. -/
def generatePRICETable (principal annualRate : ℚ) (months : ℕ) : List Row :=
  priceRows (calculatePRICEPayment principal annualRate months) (annualRate / 12)
    months principal 1

/-- The running (unclamped) balance of the PRICE loop after `j` iterations,
starting from `b`. -/
def priceBal (pm r b : ℚ) : ℕ → ℚ
  | 0 => b
  | j + 1 => priceBal pm r b j - (pm - priceBal pm r b j * r)

theorem priceBal_shift (pm r b : ℚ) (j : ℕ) :
    priceBal pm r (b - (pm - b * r)) j = priceBal pm r b (j + 1) := by
  induction j with
  | zero => rfl
  | succ j ih =>
    rw [priceBal, ih]
    conv_rhs => rw [priceBal]

/-- Closed form of the PRICE loop: row `j` (0-based) carries the constant
payment, interest on the running balance `priceBal pm r b j`, the
corresponding amortization, and stored balance
`max 0 (priceBal pm r b (j+1))`. -/
theorem priceRows_eq (pm r : ℚ) (k : ℕ) (b : ℚ) (i : ℕ) :
    priceRows pm r k b i = (List.range k).map (fun j =>
      ({ number := i + j, payment := pm,
         interest := priceBal pm r b j * r,
         amortization := pm - priceBal pm r b j * r,
         balance := max 0 (priceBal pm r b (j + 1)) } : Row)) := by
  induction k generalizing b i with
  | zero => simp [priceRows]
  | succ k ih =>
    rw [priceRows, ih, List.range_succ_eq_map, List.map_cons, List.map_map]
    refine List.cons_eq_cons.mpr ⟨?_, ?_⟩
    · simp [priceBal]
    · apply List.map_congr_left
      intro j _
      simp only [Function.comp_apply, priceBal_shift]
      congr 1
      omega

theorem priceRows_sum_amort (pm r : ℚ) (k : ℕ) (b : ℚ) (i : ℕ) :
    ((priceRows pm r k b i).map Row.amortization).sum = b - priceBal pm r b k := by
  induction k generalizing b i with
  | zero => simp [priceRows, priceBal]
  | succ k ih =>
    rw [priceRows]
    simp only [List.map_cons, List.sum_cons, ih, priceBal_shift]
    ring

/-- Affine closed form of the running PRICE balance. -/
theorem priceBal_closed (pm r b : ℚ) (k : ℕ) :
    priceBal pm r b k
      = b * (1 + r) ^ k - pm * (Finset.range k).sum (fun j => (1 + r) ^ j) := by
  induction k with
  | zero => simp [priceBal]
  | succ k ih =>
    rw [priceBal, ih, geom_sum_succ, pow_succ]
    ring

theorem priceRows_payment (pm r : ℚ) (k : ℕ) (b : ℚ) (i : ℕ) :
    ∀ row ∈ priceRows pm r k b i, row.payment = pm := by
  induction k generalizing b i with
  | zero => simp [priceRows]
  | succ k ih =>
    intro row hrow
    rw [priceRows] at hrow
    rcases List.mem_cons.mp hrow with h | h
    · rw [h]
    · exact ih _ _ row h

theorem annuity_cancel (p r q : ℚ) (hr : r ≠ 0) (hq : q - 1 ≠ 0) :
    p * (r * q) / (q - 1) * ((q - 1) / r) = p * q := by
  rw [div_mul_div_comm, mul_comm (q - 1) r]
  have h : p * (r * q) * (q - 1) = p * q * (r * (q - 1)) := by ring
  rw [h, mul_div_assoc, div_self (mul_ne_zero hr hq), mul_one]

/-- When the monthly rate is 0, or the annuity denominator
`(1+r)^months - 1` is nonzero, the running PRICE balance ends at exactly 0. -/
theorem price_final_balance (p a : ℚ) (m : ℕ) (hm : 1 ≤ m)
    (hden : a / 12 = 0 ∨ (1 + a / 12) ^ m ≠ 1) :
    priceBal (calculatePRICEPayment p a m) (a / 12) p m = 0 := by
  have hm0 : ((m : ℚ)) ≠ 0 := Nat.cast_ne_zero.mpr (by omega)
  rcases eq_or_ne (a / 12) 0 with hr | hr
  · rw [priceBal_closed, calculatePRICEPayment]
    simp only [hr, if_pos rfl, add_zero, one_pow, Finset.sum_const, Finset.card_range,
      nsmul_eq_mul, mul_one]
    field_simp
  · have hq : (1 + a / 12) ^ m ≠ 1 := hden.resolve_left hr
    have hx : (1 + a / 12) ≠ 1 := by
      intro h
      apply hr
      have h2 := congrArg (fun x => x - 1) h
      simpa using h2
    rw [priceBal_closed, geom_sum_eq hx, calculatePRICEPayment]
    simp only [if_neg hr]
    have hq0 : (1 + a / 12) ^ m - 1 ≠ 0 := sub_ne_zero.mpr hq
    have hx1 : (1 + a / 12) - 1 = a / 12 := by ring
    rw [hx1, annuity_cancel p (a / 12) ((1 + a / 12) ^ m) hr hq0, sub_self]

/-- C2 (amended): for `principal > 0`, `termMonths ≥ 1`, and any `annualRate`
whose monthly rate `r = annualRate/12` is either 0 or has annuity denominator
`(1+r)^termMonths - 1 ≠ 0`: every row of the PRICE schedule carries the same
payment `calculatePRICEPayment`, that payment is `principal/termMonths` when
`r = 0` and the annuity formula `principal·r(1+r)^n/((1+r)^n - 1)` otherwise,
and the amortization fields sum to exactly the principal. -/
theorem price_schedule_correct (principal annualRate : ℚ) (months : ℕ)
    (hp : 0 < principal) (hm : 1 ≤ months)
    (hden : annualRate / 12 = 0 ∨ (1 + annualRate / 12) ^ months ≠ 1) :
    (∀ row ∈ generatePRICETable principal annualRate months,
        row.payment = calculatePRICEPayment principal annualRate months) ∧
    (annualRate / 12 = 0 →
        calculatePRICEPayment principal annualRate months = principal / months) ∧
    (annualRate / 12 ≠ 0 →
        calculatePRICEPayment principal annualRate months
          = principal * ((annualRate / 12) * (1 + annualRate / 12) ^ months) /
            ((1 + annualRate / 12) ^ months - 1)) ∧
    ((generatePRICETable principal annualRate months).map Row.amortization).sum
        = principal := by
  refine ⟨priceRows_payment _ _ _ _ _, ?_, ?_, ?_⟩
  · intro hr
    simp [calculatePRICEPayment, hr]
  · intro hr
    simp [calculatePRICEPayment, hr]
  · rw [generatePRICETable, priceRows_sum_amort, price_final_balance principal annualRate months hm hden,
      sub_zero]

/-- C2 counterexample: at `annualRate = -24` (monthly rate `-2`) and
`termMonths = 2` the annuity denominator `(1-2)^2 - 1` is zero, and the
amortization fields of the generated schedule sum to 0, not to the
principal 1. -/
theorem price_schedule_counterexample :
    ((generatePRICETable 1 (-24) 2).map Row.amortization).sum ≠ 1 := by
  rw [generatePRICETable, priceRows_sum_amort, priceBal_closed]
  norm_num [Finset.sum_range_succ]

/-- Witness for C2 at principal 1, annual rate 0, 1 month. -/
theorem price_schedule_correct_witness :
    (0 : ℚ) < 1 ∧ (1 : ℕ) ≤ 1 ∧
    ((0 : ℚ) / 12 = 0 ∨ (1 + (0 : ℚ) / 12) ^ (1 : ℕ) ≠ 1) ∧
    ((∀ row ∈ generatePRICETable 1 0 1,
        row.payment = calculatePRICEPayment 1 0 1) ∧
     ((0 : ℚ) / 12 = 0 → calculatePRICEPayment 1 0 1 = 1 / ((1 : ℕ) : ℚ)) ∧
     ((0 : ℚ) / 12 ≠ 0 → calculatePRICEPayment 1 0 1
        = 1 * (((0 : ℚ) / 12) * (1 + (0 : ℚ) / 12) ^ (1 : ℕ)) /
          ((1 + (0 : ℚ) / 12) ^ (1 : ℕ) - 1)) ∧
     ((generatePRICETable 1 0 1).map Row.amortization).sum = 1) :=
  ⟨by norm_num, le_refl 1, Or.inl (by norm_num),
    price_schedule_correct 1 0 1 (by norm_num) (le_refl 1) (Or.inl (by norm_num))⟩

/-- `Calculations.getPRICERemainingBalance(principal, annualRate, months, paidMonths)`:
returns 0 when `paidMonths >= months`, otherwise clamps the annuity
closed-form balance over the remaining months to a minimum of 0. -/
def getPRICERemainingBalance (principal annualRate : ℚ) (months paidMonths : ℕ) : ℚ :=
  let monthlyRate := annualRate / 12
  let payment := calculatePRICEPayment principal annualRate months
  if months ≤ paidMonths then 0
  else
    let remainingMonths := months - paidMonths
    max 0 (payment * (((1 + monthlyRate) ^ remainingMonths - 1) /
      (monthlyRate * (1 + monthlyRate) ^ remainingMonths)))

/-- C3 (amended): for `principal > 0`, `termMonths ≥ 1` and a nonzero monthly
rate `r = annualRate/12` with `1 + r ≠ 0` and `(1+r)^termMonths ≠ 1`:
for `k < termMonths` the function returns the closed form
`payment·((1+r)^(n-k) - 1)/(r·(1+r)^(n-k))` clamped to be ≥ 0, at `k = 0` it
returns exactly the principal, and for every `k ≥ termMonths` it returns 0. -/
theorem price_remaining_balance_correct (principal annualRate : ℚ) (months paidMonths : ℕ)
    (hp : 0 < principal) (hm : 1 ≤ months)
    (hr : annualRate / 12 ≠ 0) (hr1 : 1 + annualRate / 12 ≠ 0)
    (hq : (1 + annualRate / 12) ^ months ≠ 1) :
    (paidMonths < months →
      getPRICERemainingBalance principal annualRate months paidMonths
        = max 0 (calculatePRICEPayment principal annualRate months *
            (((1 + annualRate / 12) ^ (months - paidMonths) - 1) /
             ((annualRate / 12) * (1 + annualRate / 12) ^ (months - paidMonths))))) ∧
    getPRICERemainingBalance principal annualRate months 0 = principal ∧
    (months ≤ paidMonths →
      getPRICERemainingBalance principal annualRate months paidMonths = 0) := by
  refine ⟨?_, ?_, ?_⟩
  · intro h
    rw [getPRICERemainingBalance]
    simp only [if_neg (not_le.mpr h)]
  · rw [getPRICERemainingBalance]
    have h0 : ¬ (months ≤ 0) := by omega
    simp only [if_neg h0, Nat.sub_zero]
    have hqz : (1 + annualRate / 12) ^ months ≠ 0 := pow_ne_zero _ hr1
    have hq0 : (1 + annualRate / 12) ^ months - 1 ≠ 0 := sub_ne_zero.mpr hq
    have key : calculatePRICEPayment principal annualRate months *
        (((1 + annualRate / 12) ^ months - 1) /
         ((annualRate / 12) * (1 + annualRate / 12) ^ months)) = principal := by
      rw [calculatePRICEPayment]
      simp only [if_neg hr]
      rw [div_mul_div_comm]
      have h2 : principal * (annualRate / 12 * (1 + annualRate / 12) ^ months) *
            ((1 + annualRate / 12) ^ months - 1)
          = principal * (((1 + annualRate / 12) ^ months - 1) *
            (annualRate / 12 * (1 + annualRate / 12) ^ months)) := by ring
      rw [h2, mul_div_assoc, div_self (mul_ne_zero hq0 (mul_ne_zero hr hqz)), mul_one]
    rw [key, max_eq_right hp.le]
  · intro h
    rw [getPRICERemainingBalance]
    simp only [if_pos h]

/-- C3 counterexample: at `annualRate = -12` the monthly rate is `-1 ≠ 0`,
yet the remaining balance after 0 paid installments of a 1-month loan of
principal 1 is not the principal. -/
theorem price_remaining_balance_counterexample :
    getPRICERemainingBalance 1 (-12) 1 0 ≠ 1 := by
  norm_num [getPRICERemainingBalance, calculatePRICEPayment]

/-- Witness for C3 at principal 1, annual rate 12 (monthly rate 1), 1 month,
0 paid installments. -/
theorem price_remaining_balance_correct_witness :
    (0 : ℚ) < 1 ∧ (1 : ℕ) ≤ 1 ∧ (12 : ℚ) / 12 ≠ 0 ∧ 1 + (12 : ℚ) / 12 ≠ 0 ∧
    (1 + (12 : ℚ) / 12) ^ (1 : ℕ) ≠ 1 ∧
    ((0 < 1 →
      getPRICERemainingBalance 1 12 1 0
        = max 0 (calculatePRICEPayment 1 12 1 *
            (((1 + (12 : ℚ) / 12) ^ ((1 : ℕ) - 0) - 1) /
             (((12 : ℚ) / 12) * (1 + (12 : ℚ) / 12) ^ ((1 : ℕ) - 0))))) ∧
     getPRICERemainingBalance 1 12 1 0 = 1 ∧
     ((1 : ℕ) ≤ 0 → getPRICERemainingBalance 1 12 1 0 = 0)) :=
  ⟨by norm_num, le_refl 1, by norm_num, by norm_num, by norm_num,
    price_remaining_balance_correct 1 12 1 0 (by norm_num) (le_refl 1)
      (by norm_num) (by norm_num) (by norm_num)⟩

theorem generatePRICETable_length (p a : ℚ) (m : ℕ) :
    (generatePRICETable p a m).length = m := by
  rw [generatePRICETable, priceRows_eq]
  simp

/-- The amortization charged at step `j` of the PRICE loop grows geometrically
with ratio `1 + r` from the first amortization `pm - b*r`. -/
theorem price_amort_closed (pm r b : ℚ) (j : ℕ) :
    pm - priceBal pm r b j * r = (1 + r) ^ j * (pm - b * r) := by
  induction j with
  | zero => simp [priceBal]
  | succ j ih =>
    have h2 : pm - priceBal pm r b (j + 1) * r
        = (1 + r) * (pm - priceBal pm r b j * r) := by
      rw [priceBal]
      ring
    rw [h2, ih, pow_succ]
    ring

theorem priceBal_succ_le (pm r b : ℚ) (hr : 0 ≤ r) (h0 : 0 ≤ pm - b * r) (j : ℕ) :
    priceBal pm r b (j + 1) ≤ priceBal pm r b j := by
  have h1 : 0 ≤ pm - priceBal pm r b j * r := by
    rw [price_amort_closed]
    exact mul_nonneg (pow_nonneg (by linarith) j) h0
  rw [priceBal]
  linarith

/-- With a nonnegative rate the PRICE payment covers at least the first
month's interest on the principal. -/
theorem price_payment_ge (p a : ℚ) (m : ℕ) (hp : 0 < p) (hm : 1 ≤ m) (ha : 0 ≤ a) :
    0 ≤ calculatePRICEPayment p a m - p * (a / 12) := by
  rcases eq_or_ne (a / 12) 0 with hr | hr
  · have h1 : (0 : ℚ) ≤ p / m := div_nonneg hp.le (Nat.cast_nonneg m)
    simp [calculatePRICEPayment, hr]
    linarith
  · have hr0 : 0 < a / 12 := lt_of_le_of_ne (div_nonneg ha (by norm_num)) (Ne.symm hr)
    have hq1 : 1 < (1 + a / 12) ^ m := one_lt_pow₀ (by linarith) (by omega)
    have hq0 : (1 + a / 12) ^ m - 1 ≠ 0 := ne_of_gt (by linarith)
    rw [calculatePRICEPayment]
    simp only [if_neg hr]
    have key : ∀ r q : ℚ, q - 1 ≠ 0 →
        p * (r * q) / (q - 1) - p * r = p * r / (q - 1) := by
      intro r q hq
      field_simp
      ring
    rw [key (a / 12) ((1 + a / 12) ^ m) hq0]
    exact div_nonneg (mul_nonneg hp.le hr0.le) (by linarith)

/-- C4: for `principal > 0`, `termMonths ≥ 1` and `annualRate ≥ 0`, in both
the SAC and the PRICE schedule every stored balance is ≥ 0 and the stored
balances are monotonically non-increasing from row to row. -/
theorem schedule_balances_nonneg_monotone (principal annualRate : ℚ) (months : ℕ)
    (hp : 0 < principal) (hm : 1 ≤ months) (ha : 0 ≤ annualRate) :
    (∀ row ∈ generateSACTable principal annualRate months, 0 ≤ row.balance) ∧
    (∀ j : ℕ, ∀ h : j + 1 < (generateSACTable principal annualRate months).length,
      ((generateSACTable principal annualRate months).get ⟨j + 1, h⟩).balance
        ≤ ((generateSACTable principal annualRate months).get
            ⟨j, Nat.lt_of_succ_lt h⟩).balance) ∧
    (∀ row ∈ generatePRICETable principal annualRate months, 0 ≤ row.balance) ∧
    (∀ j : ℕ, ∀ h : j + 1 < (generatePRICETable principal annualRate months).length,
      ((generatePRICETable principal annualRate months).get ⟨j + 1, h⟩).balance
        ≤ ((generatePRICETable principal annualRate months).get
            ⟨j, Nat.lt_of_succ_lt h⟩).balance) := by
  have ha2 : (0 : ℚ) ≤ principal / months := div_nonneg hp.le (Nat.cast_nonneg _)
  have hr : (0 : ℚ) ≤ annualRate / 12 := div_nonneg ha (by norm_num)
  refine ⟨?_, ?_, ?_, ?_⟩
  · intro row hrow
    rw [generateSACTable, sacRows_eq] at hrow
    simp only [List.mem_map] at hrow
    obtain ⟨j, _, rfl⟩ := hrow
    exact le_max_left 0 _
  · intro j h
    simp only [generateSACTable, sacRows_eq, List.get_eq_getElem, List.getElem_map,
      List.getElem_range]
    apply max_le_max le_rfl
    have h3 : principal / (months : ℚ) * ((j : ℚ) + 1)
        ≤ principal / (months : ℚ) * (((j : ℚ) + 1) + 1) :=
      mul_le_mul_of_nonneg_left (by linarith) ha2
    push_cast
    linarith
  · intro row hrow
    rw [generatePRICETable, priceRows_eq] at hrow
    simp only [List.mem_map] at hrow
    obtain ⟨j, _, rfl⟩ := hrow
    exact le_max_left 0 _
  · intro j h
    have h0 : 0 ≤ calculatePRICEPayment principal annualRate months
        - principal * (annualRate / 12) := price_payment_ge _ _ _ hp hm ha
    simp only [generatePRICETable, priceRows_eq, List.get_eq_getElem, List.getElem_map,
      List.getElem_range]
    exact max_le_max le_rfl (priceBal_succ_le _ _ _ hr h0 (j + 1))

/-- Witness for C4 at principal 1, annual rate 0, 1 month. -/
theorem schedule_balances_nonneg_monotone_witness :
    (0 : ℚ) < 1 ∧ (1 : ℕ) ≤ 1 ∧ (0 : ℚ) ≤ 0 ∧
    ((∀ row ∈ generateSACTable 1 0 1, 0 ≤ row.balance) ∧
     (∀ j : ℕ, ∀ h : j + 1 < (generateSACTable 1 0 1).length,
        ((generateSACTable 1 0 1).get ⟨j + 1, h⟩).balance
          ≤ ((generateSACTable 1 0 1).get ⟨j, Nat.lt_of_succ_lt h⟩).balance) ∧
     (∀ row ∈ generatePRICETable 1 0 1, 0 ≤ row.balance) ∧
     (∀ j : ℕ, ∀ h : j + 1 < (generatePRICETable 1 0 1).length,
        ((generatePRICETable 1 0 1).get ⟨j + 1, h⟩).balance
          ≤ ((generatePRICETable 1 0 1).get ⟨j, Nat.lt_of_succ_lt h⟩).balance)) :=
  ⟨by norm_num, le_refl 1, le_refl 0,
    schedule_balances_nonneg_monotone 1 0 1 (by norm_num) (le_refl 1) (le_refl 0)⟩

/-- Input record of `Calculations.calculateDRE`; every field is optional in
the source (destructuring with default 0). -/
structure DREInput where
  receitaBruta : ℚ := 0
  taxasPlataforma : ℚ := 0
  impostos : ℚ := 0
  custosVariaveis : ℚ := 0
  despesasFixas : ℚ := 0
  depreciacao : ℚ := 0
  despesasFinanceiras : ℚ := 0
  receitasFinanceiras : ℚ := 0
  ir : ℚ := 0
  csll : ℚ := 0

/-- Result record of `Calculations.calculateDRE`. -/
structure DRE where
  receitaBruta : ℚ
  deducoes : ℚ
  receitaLiquida : ℚ
  custosVariaveis : ℚ
  lucroBruto : ℚ
  despesasFixas : ℚ
  ebitda : ℚ
  depreciacao : ℚ
  ebit : ℚ
  despesasFinanceiras : ℚ
  receitasFinanceiras : ℚ
  lair : ℚ
  ir : ℚ
  csll : ℚ
  lucroLiquido : ℚ
  margemBruta : ℚ
  margemEbitda : ℚ
  margemLiquida : ℚ

/-- `Calculations.calculateDRE(data)`: the income-statement pipeline.  The
margin guards in the source are `receitaBruta > 0 ? ratio : 0`. -/
def calculateDRE (data : DREInput) : DRE :=
  let deducoes := data.taxasPlataforma + data.impostos
  let receitaLiquida := data.receitaBruta - deducoes
  let lucroBruto := receitaLiquida - data.custosVariaveis
  let ebitda := lucroBruto - data.despesasFixas
  let ebit := ebitda - data.depreciacao
  let lair := ebit - data.despesasFinanceiras + data.receitasFinanceiras
  let lucroLiquido := lair - data.ir - data.csll
  let margemBruta := if 0 < data.receitaBruta then lucroBruto / data.receitaBruta else 0
  let margemEbitda := if 0 < data.receitaBruta then ebitda / data.receitaBruta else 0
  let margemLiquida := if 0 < data.receitaBruta then lucroLiquido / data.receitaBruta else 0
  { receitaBruta := data.receitaBruta, deducoes := deducoes,
    receitaLiquida := receitaLiquida, custosVariaveis := data.custosVariaveis,
    lucroBruto := lucroBruto, despesasFixas := data.despesasFixas,
    ebitda := ebitda, depreciacao := data.depreciacao, ebit := ebit,
    despesasFinanceiras := data.despesasFinanceiras,
    receitasFinanceiras := data.receitasFinanceiras, lair := lair,
    ir := data.ir, csll := data.csll, lucroLiquido := lucroLiquido,
    margemBruta := margemBruta, margemEbitda := margemEbitda,
    margemLiquida := margemLiquida }

/-- C5 (amended): the income statement satisfies the exact subtotal pipeline
for every input record; each margin equals the corresponding line divided by
gross revenue when gross revenue is positive, and is 0 otherwise (including
zero and negative gross revenue — the source guard is `receitaBruta > 0`). -/
theorem dre_pipeline_correct (data : DREInput) :
    (calculateDRE data).deducoes = data.taxasPlataforma + data.impostos ∧
    (calculateDRE data).receitaLiquida
      = (calculateDRE data).receitaBruta - (calculateDRE data).deducoes ∧
    (calculateDRE data).lucroBruto
      = (calculateDRE data).receitaLiquida - (calculateDRE data).custosVariaveis ∧
    (calculateDRE data).ebitda
      = (calculateDRE data).lucroBruto - (calculateDRE data).despesasFixas ∧
    (calculateDRE data).ebit
      = (calculateDRE data).ebitda - (calculateDRE data).depreciacao ∧
    (calculateDRE data).lair
      = (calculateDRE data).ebit - (calculateDRE data).despesasFinanceiras
        + (calculateDRE data).receitasFinanceiras ∧
    (calculateDRE data).lucroLiquido
      = (calculateDRE data).lair - (calculateDRE data).ir - (calculateDRE data).csll ∧
    (0 < data.receitaBruta →
      (calculateDRE data).margemBruta
          = (calculateDRE data).lucroBruto / data.receitaBruta ∧
      (calculateDRE data).margemEbitda
          = (calculateDRE data).ebitda / data.receitaBruta ∧
      (calculateDRE data).margemLiquida
          = (calculateDRE data).lucroLiquido / data.receitaBruta) ∧
    (¬ 0 < data.receitaBruta →
      (calculateDRE data).margemBruta = 0 ∧
      (calculateDRE data).margemEbitda = 0 ∧
      (calculateDRE data).margemLiquida = 0) := by
  refine ⟨rfl, rfl, rfl, rfl, rfl, rfl, rfl, ?_, ?_⟩
  · intro h
    refine ⟨?_, ?_, ?_⟩ <;> simp [calculateDRE, h]
  · intro h
    refine ⟨?_, ?_, ?_⟩ <;> simp [calculateDRE, h]

/-- C5 counterexample: with gross revenue -1 (and all other fields 0) the
gross margin reported is 0, not `lucroBruto / receitaBruta = 1` as the
claim's unconditional ratio reading requires. -/
theorem dre_margin_counterexample :
    (calculateDRE ({ receitaBruta := -1 } : DREInput)).margemBruta
      ≠ (calculateDRE ({ receitaBruta := -1 } : DREInput)).lucroBruto
        / (calculateDRE ({ receitaBruta := -1 } : DREInput)).receitaBruta := by
  norm_num [calculateDRE]

/-- Witness for C5 at a record with gross revenue 1 and all other fields 0. -/
theorem dre_pipeline_correct_witness :
    (calculateDRE ({ receitaBruta := 1 } : DREInput)).deducoes
        = ({ receitaBruta := 1 } : DREInput).taxasPlataforma
          + ({ receitaBruta := 1 } : DREInput).impostos ∧
    (0 : ℚ) < 1 ∧
    (calculateDRE ({ receitaBruta := 1 } : DREInput)).margemBruta
        = (calculateDRE ({ receitaBruta := 1 } : DREInput)).lucroBruto / 1 :=
  ⟨(dre_pipeline_correct { receitaBruta := 1 }).1, by norm_num,
    ((dre_pipeline_correct { receitaBruta := 1 }).2.2.2.2.2.2.2.1 (by norm_num)).1⟩

/-- Input record of `Calculations.calculateCashFlow`; each field is optional
in the source (destructuring with default 0). -/
structure CashFlowInput where
  recebimentos : ℚ := 0
  pagamentosOperacionais : ℚ := 0
  pagamentosImpostos : ℚ := 0
  aquisicoesAtivos : ℚ := 0
  vendasAtivos : ℚ := 0
  aportesCapital : ℚ := 0
  pagamentosFinanciamentos : ℚ := 0
  distribuicaoLucros : ℚ := 0
  saldoInicial : ℚ := 0

/-- The `operacional` sub-record of the cash-flow statement. -/
structure OperationalFlow where
  recebimentos : ℚ
  pagamentosOperacionais : ℚ
  pagamentosImpostos : ℚ
  total : ℚ

/-- The `investimento` sub-record of the cash-flow statement. -/
structure InvestmentFlow where
  aquisicoesAtivos : ℚ
  vendasAtivos : ℚ
  total : ℚ

/-- The `financiamento` sub-record of the cash-flow statement. -/
structure FinancingFlow where
  aportesCapital : ℚ
  pagamentosFinanciamentos : ℚ
  distribuicaoLucros : ℚ
  total : ℚ

/-- Result record of `Calculations.calculateCashFlow`. -/
structure CashFlowStatement where
  operacional : OperationalFlow
  investimento : InvestmentFlow
  financiamento : FinancingFlow
  saldoInicial : ℚ
  fluxoTotal : ℚ
  saldoFinal : ℚ

/-- `Calculations.calculateCashFlow(data)`. -/
def calculateCashFlow (data : CashFlowInput) : CashFlowStatement :=
  let fluxoOperacional := data.recebimentos - data.pagamentosOperacionais
    - data.pagamentosImpostos
  let fluxoInvestimento := data.vendasAtivos - data.aquisicoesAtivos
  let fluxoFinanciamento := data.aportesCapital - data.pagamentosFinanciamentos
    - data.distribuicaoLucros
  let fluxoTotal := fluxoOperacional + fluxoInvestimento + fluxoFinanciamento
  let saldoFinal := data.saldoInicial + fluxoTotal
  { operacional :=
      { recebimentos := data.recebimentos
        pagamentosOperacionais := data.pagamentosOperacionais
        pagamentosImpostos := data.pagamentosImpostos
        total := fluxoOperacional }
    investimento :=
      { aquisicoesAtivos := data.aquisicoesAtivos
        vendasAtivos := data.vendasAtivos
        total := fluxoInvestimento }
    financiamento :=
      { aportesCapital := data.aportesCapital
        pagamentosFinanciamentos := data.pagamentosFinanciamentos
        distribuicaoLucros := data.distribuicaoLucros
        total := fluxoFinanciamento }
    saldoInicial := data.saldoInicial
    fluxoTotal := fluxoTotal
    saldoFinal := saldoFinal }

/-- C6: for every input record the cash-flow statement satisfies exactly
`saldoFinal = saldoInicial + operating total + investing total + financing
total`, `saldoFinal - saldoInicial = fluxoTotal`, and `fluxoTotal` is the sum
of the three activity totals. -/
theorem cash_flow_articulation (data : CashFlowInput) :
    (calculateCashFlow data).saldoFinal
      = (calculateCashFlow data).saldoInicial
        + (calculateCashFlow data).operacional.total
        + (calculateCashFlow data).investimento.total
        + (calculateCashFlow data).financiamento.total ∧
    (calculateCashFlow data).saldoFinal - (calculateCashFlow data).saldoInicial
      = (calculateCashFlow data).fluxoTotal ∧
    (calculateCashFlow data).fluxoTotal
      = (calculateCashFlow data).operacional.total
        + (calculateCashFlow data).investimento.total
        + (calculateCashFlow data).financiamento.total := by
  refine ⟨?_, ?_, rfl⟩
  · simp only [calculateCashFlow]
    ring
  · simp only [calculateCashFlow]
    ring

/-- Result record of `Calculations.calculateConsortium`. -/
structure ConsortiumResult where
  monthlyPayment : ℚ
  totalPaid : ℚ
  totalCost : ℚ
  effectiveRate : ℚ

/-- `Calculations.calculateConsortium(creditAmount, adminFee, reserveFund,
insurance, months)`. -/
def calculateConsortium (creditAmount adminFee reserveFund insurance : ℚ)
    (months : ℕ) : ConsortiumResult :=
  let totalFees := adminFee + reserveFund + insurance
  let monthlyPayment := creditAmount / months * (1 + totalFees)
  let totalPaid := monthlyPayment * months
  let totalCost := totalPaid - creditAmount
  { monthlyPayment := monthlyPayment, totalPaid := totalPaid,
    totalCost := totalCost, effectiveRate := totalCost / creditAmount }

/-- C9: for nonzero credit amount and nonzero term, the effective rate equals
exactly the sum of the three fee rates — independently of the credit amount
and the term — and the total cost equals the credit amount times that sum. -/
theorem consortium_effective_rate (creditAmount adminFee reserveFund insurance : ℚ)
    (months : ℕ) (hc : creditAmount ≠ 0) (hm : (months : ℚ) ≠ 0) :
    (calculateConsortium creditAmount adminFee reserveFund insurance months).effectiveRate
        = adminFee + reserveFund + insurance ∧
    (calculateConsortium creditAmount adminFee reserveFund insurance months).totalCost
        = creditAmount * (adminFee + reserveFund + insurance) := by
  have h1 : creditAmount / months * (1 + (adminFee + reserveFund + insurance)) * months
        - creditAmount = creditAmount * (adminFee + reserveFund + insurance) := by
    field_simp
    ring
  constructor
  · show (creditAmount / months * (1 + (adminFee + reserveFund + insurance)) * months
        - creditAmount) / creditAmount = _
    rw [h1, mul_comm, mul_div_assoc, div_self hc, mul_one]
  · exact h1

/-- Witness for C9 at the concrete plan (credit 200000, fees 15% + 5% + 2%,
100 months), whose effective rate is 22%. -/
theorem consortium_effective_rate_witness :
    (200000 : ℚ) ≠ 0 ∧ ((100 : ℕ) : ℚ) ≠ 0 ∧
    ((calculateConsortium 200000 (15 / 100) (5 / 100) (2 / 100) 100).effectiveRate
        = 15 / 100 + 5 / 100 + 2 / 100 ∧
     (calculateConsortium 200000 (15 / 100) (5 / 100) (2 / 100) 100).totalCost
        = 200000 * (15 / 100 + 5 / 100 + 2 / 100)) :=
  ⟨by norm_num, by norm_num,
    consortium_effective_rate 200000 (15 / 100) (5 / 100) (2 / 100) 100
      (by norm_num) (by norm_num)⟩

/-- Result record of `Calculations.calculateDCF`. -/
structure DCFResult where
  pvCashFlows : ℚ
  terminalValue : ℚ
  pvTerminalValue : ℚ
  enterpriseValue : ℚ

/-- The `forEach` accumulation of present values in `calculateDCF`: the flow
at 1-based `year` contributes `cf / (1 + discountRate) ^ year`. -/
def dcfPVAux (discountRate : ℚ) : List ℚ → ℕ → ℚ
  | [], _ => 0
  | cf :: rest, year =>
      cf / (1 + discountRate) ^ year + dcfPVAux discountRate rest (year + 1)

/-- Present value of the projected cash flows, years counted from 1. -/
def dcfPresentValue (cashFlows : List ℚ) (discountRate : ℚ) : ℚ :=
  dcfPVAux discountRate cashFlows 1

/-- `Calculations.calculateDCF(cashFlows, discountRate, terminalGrowthRate)`.
The source reads `cashFlows[cashFlows.length - 1]`; on an empty array that
access yields no value (`undefined`, making the downstream terminal-value
arithmetic NaN), embedded here as an `Option` that is `none` exactly when the
last-element lookup is out of bounds. -/
def calculateDCF (cashFlows : List ℚ) (discountRate terminalGrowthRate : ℚ) :
    Option DCFResult :=
  let presentValue := dcfPresentValue cashFlows discountRate
  match cashFlows.getLast? with
  | none => none
  | some lastCashFlow =>
    let terminalValue := lastCashFlow * (1 + terminalGrowthRate) /
      (discountRate - terminalGrowthRate)
    let pvTerminalValue := terminalValue / (1 + discountRate) ^ cashFlows.length
    some { pvCashFlows := presentValue
           terminalValue := terminalValue
           pvTerminalValue := pvTerminalValue
           enterpriseValue := presentValue + pvTerminalValue }

/-- C7: with terminal growth 0 and a single-period cash flow `X` at discount
rate `r > 0`, the enterprise value equals `X/(1+r) + X/(r·(1+r))`. -/
theorem dcf_single_period (X r : ℚ) (hr : 0 < r) :
    (calculateDCF [X] r 0).map DCFResult.enterpriseValue
      = some (X / (1 + r) + X / (r * (1 + r))) := by
  have h1 : dcfPresentValue [X] r = X / (1 + r) := by
    simp [dcfPresentValue, dcfPVAux]
  simp only [calculateDCF, h1]
  simp [div_div]

/-- Witness for C7 at `X = 1`, `r = 1`. -/
theorem dcf_single_period_witness :
    (0 : ℚ) < 1 ∧
    (calculateDCF [1] 1 0).map DCFResult.enterpriseValue
      = some (1 / (1 + 1) + 1 / (1 * (1 + 1))) :=
  ⟨by norm_num, dcf_single_period 1 1 (by norm_num)⟩

/-- C10: on an empty cash-flow sequence the accumulated present value is 0,
but the last-element lookup yields no value, so `calculateDCF` produces no
result record; for every input the out-of-bounds branch is reached exactly
when the sequence is empty. -/
theorem dcf_empty_flows (r g : ℚ) :
    dcfPresentValue [] r = 0 ∧
    calculateDCF [] r g = none ∧
    (∀ cashFlows : List ℚ, calculateDCF cashFlows r g = none ↔ cashFlows = []) := by
  refine ⟨rfl, rfl, ?_⟩
  intro cashFlows
  cases cashFlows with
  | nil => simp [calculateDCF]
  | cons c cs =>
    obtain ⟨x, hx⟩ :=
      Option.isSome_iff_exists.mp (List.getLast?_isSome.mpr (List.cons_ne_nil c cs))
    simp [calculateDCF, hx]

/-- `Calculations.calculateCapRate(noi, propertyValue)`. -/
def calculateCapRate (noi propertyValue : ℚ) : ℚ :=
  if propertyValue = 0 then 0 else noi / propertyValue

/-- `Calculations.calculateCashOnCash(annualCashFlow, cashInvested)`. -/
def calculateCashOnCash (annualCashFlow cashInvested : ℚ) : ℚ :=
  if cashInvested = 0 then 0 else annualCashFlow / cashInvested

/-- `Calculations.calculateLTV(loanAmount, propertyValue)`. -/
def calculateLTV (loanAmount propertyValue : ℚ) : ℚ :=
  if propertyValue = 0 then 0 else loanAmount / propertyValue

/-- Result record of `Calculations.calculateAppreciation`. -/
structure AppreciationResult where
  totalAppreciation : ℝ
  percentAppreciation : ℝ
  annualizedReturn : ℝ

/-- `Calculations.calculateAppreciation(purchasePrice, currentValue, years)`:
the percent guard is `purchasePrice > 0 ? ratio : 0`, and the CAGR guard is
`years > 0 ? Math.pow(currentValue / purchasePrice, 1 / years) - 1 : 0`.
The real-exponent `Math.pow` is embedded with `Real.rpow`. -/
noncomputable def calculateAppreciation (purchasePrice currentValue years : ℝ) :
    AppreciationResult :=
  let totalAppreciation := currentValue - purchasePrice
  let percentAppreciation :=
    if 0 < purchasePrice then totalAppreciation / purchasePrice else 0
  let annualizedReturn :=
    if 0 < years then (currentValue / purchasePrice) ^ ((1 : ℝ) / years) - 1 else 0
  { totalAppreciation := totalAppreciation
    percentAppreciation := percentAppreciation
    annualizedReturn := annualizedReturn }

/-- C8 (amended): `calculateCapRate`, `calculateCashOnCash` and `calculateLTV`
each return 0 when their denominator is 0, and `percentAppreciation` is 0 when
the purchase price is 0; `annualizedReturn`, however, is guarded by
`years ≤ 0` (returning 0 then), not by the purchase price. -/
theorem ratio_zero_guards :
    (∀ noi : ℚ, calculateCapRate noi 0 = 0) ∧
    (∀ annualCashFlow : ℚ, calculateCashOnCash annualCashFlow 0 = 0) ∧
    (∀ loanAmount : ℚ, calculateLTV loanAmount 0 = 0) ∧
    (∀ currentValue years : ℝ,
      (calculateAppreciation 0 currentValue years).percentAppreciation = 0) ∧
    (∀ purchasePrice currentValue years : ℝ, years ≤ 0 →
      (calculateAppreciation purchasePrice currentValue years).annualizedReturn = 0) := by
  refine ⟨?_, ?_, ?_, ?_, ?_⟩
  · intro noi
    simp [calculateCapRate]
  · intro annualCashFlow
    simp [calculateCashOnCash]
  · intro loanAmount
    simp [calculateLTV]
  · intro currentValue years
    simp [calculateAppreciation]
  · intro purchasePrice currentValue years hy
    simp [calculateAppreciation, not_lt.mpr hy]

/-- C8 counterexample: at purchase price 0, current value 1 and 1 year, the
annualized return is not 0 (the guard tests `years`, not the purchase price;
at this input JavaScript computes `Math.pow(1/0, 1) - 1 = Infinity`, and the
total-division embedding computes `-1` — neither is the 0 the claim
requires). -/
theorem appreciation_zero_purchase_counterexample :
    (calculateAppreciation 0 1 1).annualizedReturn ≠ 0 := by
  simp only [calculateAppreciation]
  rw [if_pos (by norm_num : (0 : ℝ) < 1)]
  rw [div_zero, div_one, Real.rpow_one]
  norm_num

/-- Witness for C8: the `years ≤ 0` guard of the annualized return at a
concrete input. -/
theorem ratio_zero_guards_witness :
    calculateCapRate 1 0 = 0 ∧ (0 : ℝ) ≤ 0 ∧
    (calculateAppreciation 1 1 0).annualizedReturn = 0 :=
  ⟨ratio_zero_guards.1 1, le_refl 0, ratio_zero_guards.2.2.2.2 1 1 0 (le_refl 0)⟩
